import Mathlib

/-!
Shallow embedding of the stash Recovery controller and its utility layer.

The embedding covers:
* the Recovery / Restic data model (quantities, volumes, backends);
* the utility functions of `pkg/util/kubernetes.go`: `ResticEqual`,
  `RecoveryEqual`, `MergeLocalVolume` (with kutil's `UpsertVolume`),
  `CreateSidecarContainer`, `CreateRecoveryJob`, `WorkloadExists`;
* the Recovery controller of `pkg/controller/recoveries.go`:
  the update event handler, `processNextRecovery` and `runRecoveryJob`.

Stateful controller code is embedded as pure functions over an explicit
environment (the outcomes of the external API calls) which return an
effect trace alongside the Go return value, so that claims about side
effects (phase writes, recorded events, API calls) become statements
about the trace.
-/

/-- Model of `k8s.io/apimachinery` errors as seen by this code base: the
controller only ever discriminates errors with `kerr.IsAlreadyExists`. -/
structure KError where
  msg : String := ""
  alreadyExists : Bool := false
  deriving DecidableEq

/-- Model of `resource.Quantity`: the parsed numeric amount `i` together
with the cached serialized form `s` and the format tag, all of which are
fields of the Go struct and therefore all visible to `reflect.DeepEqual`.
`Quantity.Cmp` compares only the numeric amount. -/
structure Quantity where
  i : Int
  s : String
  Format : String := "BinarySI"
  deriving DecidableEq

/-- Go `x.Cmp(y) == 0`: numeric comparison of quantities. -/
def Quantity.cmpEqual (x y : Quantity) : Bool :=
  decide (x.i = y.i)

/-- Model of `core.VolumeSource`: enough constructors to host the sources
this code moves around, including a quantity-valued field (the emptyDir
size limit) so that quantity comparison semantics are observable. -/
inductive VolumeSource where
  | emptyDir (sizeLimit : Option Quantity)
  | hostPath (path : String)
  | other (descriptor : String)
  deriving DecidableEq

/-- Model of `core.Volume`. -/
structure Volume where
  name : String
  volumeSource : VolumeSource
  deriving DecidableEq

/-- Model of `core.VolumeMount`. -/
structure VolumeMount where
  name : String
  mountPath : String
  subPath : String := ""
  readOnly : Bool := false
  deriving DecidableEq

/-- Model of `core.ResourceRequirements`: resource lists are association
lists from resource name to quantity (Go maps; lookup-based equality is
used where Go compares maps). -/
structure ResourceRequirements where
  limits : List (String × Quantity) := []
  requests : List (String × Quantity) := []
  deriving DecidableEq

/-- Modelled from the spec: the local backend of a BackupPolicy, "a
storage backend descriptor (local path or remote)": a volume source plus
the declared path (`api.LocalSpec`, not under the extracted sources). -/
structure LocalSpec where
  volumeSource : VolumeSource
  path : String
  deriving DecidableEq

/-- Modelled from the spec: the backend descriptor, "exactly one of
{local, remote}, with a secret reference for credentials"
(`api.Backend`, not under the extracted sources). The field `Local`
keeps the Go field name. -/
structure Backend where
  storageSecretName : String := ""
  Local : Option LocalSpec := none
  remote : Option String := none
  deriving DecidableEq

/-- Model of `metav1.ObjectMeta`: the fields this code reads. `ns` models
`metadata.namespace`. -/
structure ObjectMeta where
  name : String
  ns : String
  annotations : List (String × String) := []
  deriving DecidableEq

/-- Modelled from the spec: the BackupPolicy spec — "a label selector
matching target workloads, a file-group list with retention rules, a
storage backend descriptor, a schedule expression, and a list of volume
mounts", plus the container resources read by `CreateSidecarContainer`
(`api.ResticSpec`, not under the extracted sources). The selector and
file groups are opaque to every function modelled here. -/
structure ResticSpec where
  selector : String := ""
  fileGroups : List String := []
  backend : Backend := {}
  schedule : String := ""
  volumeMounts : List VolumeMount := []
  resources : ResourceRequirements := {}
  deriving DecidableEq

/-- Model of `api.Restic`: object metadata plus spec. The spec records
that a BackupPolicy has "no controller-owned status phase", so there is
no status subsection. -/
structure Restic where
  metadata : ObjectMeta
  spec : ResticSpec
  deriving DecidableEq

/-- Model of `api.RecoveryPhase` (a string in Go; the empty string is the
unspecified phase). -/
inductive RecoveryPhase where
  | Unspecified
  | Pending
  | Running
  | Succeeded
  | Failed
  deriving DecidableEq

/-- Modelled from the spec: the RecoveryRequest spec — "a reference to
the BackupPolicy to recover from, target node name, a volume list to
mount into the recovery job" (`api.RecoverySpec`, not under the
extracted sources; the controller reads exactly `Spec.Restic`,
`Spec.NodeName` and `Spec.Volumes`). -/
structure RecoverySpec where
  restic : String := ""
  nodeName : String := ""
  volumes : List Volume := []
  deriving DecidableEq

/-- Model of `api.RecoveryStatus`. -/
structure RecoveryStatus where
  phase : RecoveryPhase := RecoveryPhase.Unspecified
  deriving DecidableEq

/-- Model of `api.Recovery`. -/
structure Recovery where
  metadata : ObjectMeta
  spec : RecoverySpec
  status : RecoveryStatus
  deriving DecidableEq

/-- Model of `api.LocalTypedReference` (workload reference). -/
structure LocalTypedReference where
  kind : String
  name : String
  deriving DecidableEq

/-- Model of `core.PullPolicy`; `Unspecified` is the Go zero value. -/
inductive PullPolicy where
  | Unspecified
  | Always
  | IfNotPresent
  deriving DecidableEq

/-- Model of `core.EnvVar` restricted to the downward-API form this code
builds. -/
structure EnvVar where
  name : String
  fieldPath : String
  deriving DecidableEq

/-- Model of `core.Container`: the fields `CreateSidecarContainer` and
`CreateRecoveryJob` populate. -/
structure Container where
  name : String
  image : String
  imagePullPolicy : PullPolicy := PullPolicy.Unspecified
  args : List String := []
  env : List EnvVar := []
  resources : ResourceRequirements := {}
  volumeMounts : List VolumeMount := []
  deriving DecidableEq

/-- Model of `metav1.OwnerReference` restricted to the fields set here. -/
structure OwnerReference where
  apiVersion : String
  kind : String
  name : String
  deriving DecidableEq

/-- Model of the pod template spec of the recovery job. -/
structure PodSpec where
  containers : List Container
  restartPolicy : String := ""
  volumes : List Volume := []
  nodeName : String := ""
  serviceAccountName : String := ""
  deriving DecidableEq

/-- Model of `batch.Job` restricted to the fields `CreateRecoveryJob`
sets. -/
structure Job where
  name : String
  ns : String
  ownerReferences : List OwnerReference := []
  template : PodSpec
  deriving DecidableEq

-- Constants of `pkg/util/kubernetes.go` and `pkg/docker/checks.go`.

def StashContainer : String := "stash"

def LocalVolumeName : String := "stash-local"

def ScratchDirVolumeName : String := "stash-scratchdir"

def PodinfoVolumeName : String := "stash-podinfo"

def ImageOperator : String := "appscode/stash"

/-- Modelled from the spec: the per-policy image tag override lives in
"an explicit annotation" (`api.VersionTag`, not under the extracted
sources; only the key's identity matters to this development). -/
def VersionTag : String := "restic.appscode.com/tag"

/-- Modelled from the spec: event reason for a failed recovery
(`eventer.EventReasonFailedToRecover`, not under the extracted
sources). -/
def EventReasonFailedToRecover : String := "FailedToRecover"

/-- Modelled from the spec: event reason for a created recovery job
(`eventer.EventReasonJobCreated`, not under the extracted sources). -/
def EventReasonJobCreated : String := "JobCreated"

-- Recognized workload kinds (`api.Kind*` constants).

def KindDeployment : String := "Deployment"

def KindReplicaSet : String := "ReplicaSet"

def KindReplicationController : String := "ReplicationController"

def KindStatefulSet : String := "StatefulSet"

def KindDaemonSet : String := "DaemonSet"

-- Quantity-aware structural equality: the semantics of
-- `cmp.Equal(oldSpec, newSpec, cmp.Comparer(func(x, y resource.Quantity)
-- bool { return x.Cmp(y) == 0 }))` in `ResticEqual`: every field is
-- compared structurally, except that each embedded `Quantity` is compared
-- by `Cmp` (parsed numeric value), and resource lists (Go maps) are
-- compared by key lookup.

/-- Quantity comparison used by the `cmp.Comparer` in `ResticEqual`. -/
def optQuantityQeq : Option Quantity → Option Quantity → Bool
  | none, none => true
  | some x, some y => Quantity.cmpEqual x y
  | _, _ => false

/-- Quantity-aware equality of volume sources. -/
def VolumeSource.qeq : VolumeSource → VolumeSource → Bool
  | VolumeSource.emptyDir a, VolumeSource.emptyDir b => optQuantityQeq a b
  | VolumeSource.hostPath a, VolumeSource.hostPath b => decide (a = b)
  | VolumeSource.other a, VolumeSource.other b => decide (a = b)
  | _, _ => false

/-- Quantity-aware equality of local backends. -/
def LocalSpec.qeq (a b : LocalSpec) : Bool :=
  VolumeSource.qeq a.volumeSource b.volumeSource && decide (a.path = b.path)

/-- Quantity-aware equality of optional local backends. -/
def optLocalQeq : Option LocalSpec → Option LocalSpec → Bool
  | none, none => true
  | some a, some b => LocalSpec.qeq a b
  | _, _ => false

/-- Quantity-aware equality of backends. -/
def Backend.qeq (a b : Backend) : Bool :=
  decide (a.storageSecretName = b.storageSecretName)
    && optLocalQeq a.Local b.Local && decide (a.remote = b.remote)

/-- Quantity-aware equality of resource lists (Go maps from resource name
to quantity: same keys, values compared by `Cmp`). -/
def resourceListQeq (a b : List (String × Quantity)) : Bool :=
  (a.map Prod.fst ++ b.map Prod.fst).all
    (fun k => optQuantityQeq (a.lookup k) (b.lookup k))

/-- Quantity-aware equality of resource requirements. -/
def ResourceRequirements.qeq (a b : ResourceRequirements) : Bool :=
  resourceListQeq a.limits b.limits && resourceListQeq a.requests b.requests

/-- Quantity-aware equality of Restic specs: the semantics of the
`cmp.Equal` call in `ResticEqual`. -/
def ResticSpec.qeq (a b : ResticSpec) : Bool :=
  decide (a.selector = b.selector) && decide (a.fileGroups = b.fileGroups)
    && Backend.qeq a.backend b.backend && decide (a.schedule = b.schedule)
    && decide (a.volumeMounts = b.volumeMounts)
    && ResourceRequirements.qeq a.resources b.resources

/-- Quantity-aware equality of optional Restic specs (the Go pointers
`oldSpec`/`newSpec`, nil when the object pointer is nil). -/
def optResticSpecQeq : Option ResticSpec → Option ResticSpec → Bool
  | none, none => true
  | some a, some b => ResticSpec.qeq a b
  | _, _ => false

/-- `ResticEqual` from `pkg/util/kubernetes.go`: projects both objects to
their spec and compares with the quantity-aware comparer. -/
def ResticEqual (old nw : Option Restic) : Bool :=
  optResticSpecQeq (old.map Restic.spec) (nw.map Restic.spec)

/-- `RecoveryEqual` from `pkg/util/kubernetes.go`: projects both objects
to their spec and compares with `reflect.DeepEqual`, i.e. full structural
equality (including the cached string form of any quantity). -/
def RecoveryEqual (old nw : Option Recovery) : Bool :=
  decide (old.map Recovery.spec = nw.map Recovery.spec)

/-- Modelled from the spec: the quantity-aware spec comparison the spec's
filtering rule asks for ("numeric quantity fields compared by parsed
value, not string form") applied to a Recovery spec; stated only to be
compared against the `reflect.DeepEqual`-based `RecoveryEqual` above. -/
def Volume.qeq (a b : Volume) : Bool :=
  decide (a.name = b.name) && VolumeSource.qeq a.volumeSource b.volumeSource

/-- Modelled from the spec: quantity-aware equality of volume lists. -/
def volumesQeq : List Volume → List Volume → Bool
  | [], [] => true
  | a :: restA, b :: restB => Volume.qeq a b && volumesQeq restA restB
  | _, _ => false

/-- Modelled from the spec: quantity-aware equality of Recovery specs
(what `RecoveryEqual` would decide if it compared quantities by parsed
value like `ResticEqual` does). -/
def RecoverySpecNumEq (a b : RecoverySpec) : Bool :=
  decide (a.restic = b.restic) && decide (a.nodeName = b.nodeName)
    && volumesQeq a.volumes b.volumes

/-- `UpsertVolume` from kutil (`core_util.UpsertVolume`), called by
`MergeLocalVolume`: replace the first volume with the same name, append
otherwise. -/
def UpsertVolume : List Volume → Volume → List Volume
  | [], nv => [nv]
  | v :: rest, nv =>
    if v.name = nv.name then nv :: rest else v :: UpsertVolume rest nv

/-- The `oldPos` search loop of `MergeLocalVolume`: index of the first
volume named `stash-local`. -/
def findLocalIdx : List Volume → Option Nat
  | [] => none
  | v :: rest =>
    if v.name = LocalVolumeName then some 0
    else (findLocalIdx rest).map (fun i => i + 1)

/-- `MergeLocalVolume` from `pkg/util/kubernetes.go`: locate an existing
`stash-local` volume only when the old policy had a local backend, then
replace / upsert it when the new policy has a local backend, or remove it
when the new policy does not. -/
def MergeLocalVolume (volumes : List Volume) (old : Option Restic) (nw : Restic) :
    List Volume :=
  let oldPos : Option Nat :=
    match old with
    | some o =>
      match o.spec.backend.Local with
      | some _ => findLocalIdx volumes
      | none => none
    | none => none
  match nw.spec.backend.Local with
  | some l =>
    match oldPos with
    | some i => volumes.set i { name := LocalVolumeName, volumeSource := l.volumeSource }
    | none => UpsertVolume volumes { name := LocalVolumeName, volumeSource := l.volumeSource }
  | none =>
    match oldPos with
    | some i => volumes.eraseIdx i
    | none => volumes

/-- Number of entries named `stash-local` in a volume list. -/
def countLocal : List Volume → Nat
  | [] => 0
  | v :: rest => (if v.name = LocalVolumeName then 1 else 0) + countLocal rest

/-- The subsequence of volumes whose name is not `stash-local`, in their
original relative order. -/
def othersOf : List Volume → List Volume
  | [] => []
  | v :: rest =>
    if v.name = LocalVolumeName then othersOf rest else v :: othersOf rest

/-- Whether the old policy pointer is non-nil with a local backend (the
guard of the `oldPos` search in `MergeLocalVolume`). -/
def oldHasLocal : Option Restic → Bool
  | some o => (o.spec.backend.Local).isSome
  | none => false

/-- The tag reassignment at the top of `CreateSidecarContainer`: the
policy's version-tag annotation overrides the configured tag when
present. -/
def effectiveTag (r : Restic) (tag : String) : String :=
  match r.metadata.annotations.lookup VersionTag with
  | some v => v
  | none => tag

/-- `CreateSidecarContainer` from `pkg/util/kubernetes.go`. -/
def CreateSidecarContainer (r : Restic) (tag : String) (workload : LocalTypedReference) :
    Container :=
  let tag := effectiveTag r tag
  let sidecar : Container := {
    name := StashContainer
    image := ImageOperator ++ ":" ++ tag
    imagePullPolicy := PullPolicy.IfNotPresent
    args := ["schedule",
             "--restic-name=" ++ r.metadata.name,
             "--workload-kind=" ++ workload.kind,
             "--workload-name=" ++ workload.name]
    env := [{ name := "NODE_NAME", fieldPath := "spec.nodeName" },
            { name := "POD_NAME", fieldPath := "metadata.name" }]
    resources := r.spec.resources
    volumeMounts := [{ name := ScratchDirVolumeName, mountPath := "/tmp" },
                     { name := PodinfoVolumeName, mountPath := "/etc/stash" }] }
  let sidecar :=
    if tag = "canary" then
      { sidecar with imagePullPolicy := PullPolicy.Always, args := sidecar.args ++ ["--v=5"] }
    else
      { sidecar with args := sidecar.args ++ ["--v=3"] }
  let sidecar :=
    { sidecar with
        volumeMounts := sidecar.volumeMounts
          ++ r.spec.volumeMounts.map (fun srcVol =>
               { name := srcVol.name, mountPath := srcVol.mountPath,
                 subPath := srcVol.subPath, readOnly := true }) }
  match r.spec.backend.Local with
  | some l =>
    { sidecar with
        volumeMounts := sidecar.volumeMounts
          ++ [{ name := LocalVolumeName, mountPath := l.path }] }
  | none => sidecar

/-- `CreateRecoveryJob` from `pkg/util/kubernetes.go`: the one-shot batch
job derived from a Recovery; when the policy backend is local, the
`stash-local` mount and volume are appended. -/
def CreateRecoveryJob (recovery : Recovery) (restic : Restic) (tag : String) : Job :=
  let localMounts : List VolumeMount :=
    match restic.spec.backend.Local with
    | some l => [{ name := LocalVolumeName, mountPath := l.path }]
    | none => []
  let localVolumes : List Volume :=
    match restic.spec.backend.Local with
    | some l => [{ name := LocalVolumeName, volumeSource := l.volumeSource }]
    | none => []
  { name := "stash-" ++ recovery.metadata.name
    ns := recovery.metadata.ns
    ownerReferences := [{ apiVersion := "stash.appscode.com/v1alpha1",
                          kind := "Recovery", name := recovery.metadata.name }]
    template := {
      containers := [{
        name := StashContainer
        image := ImageOperator ++ ":" ++ tag
        args := ["recover", "--recovery-name=" ++ recovery.metadata.name, "--v=10"]
        volumeMounts := (restic.spec.volumeMounts
            ++ [{ name := ScratchDirVolumeName, mountPath := "/tmp" }])
          ++ localMounts }]
      restartPolicy := "OnFailure"
      volumes := (recovery.spec.volumes
          ++ [{ name := ScratchDirVolumeName,
                volumeSource := VolumeSource.emptyDir none }])
        ++ localVolumes
      nodeName := recovery.spec.nodeName } }

/-- Environment of `WorkloadExists`: the outcome of `Canonicalize` and of
the per-kind Get calls against the API server. -/
structure WorkloadEnv where
  canonicalize : LocalTypedReference → Except KError LocalTypedReference
  getDeployment : Option KError := none
  getReplicaSet : Option KError := none
  getReplicationController : Option KError := none
  getStatefulSet : Option KError := none
  getDaemonSet : Option KError := none

/-- `WorkloadExists` from `pkg/util/kubernetes.go`. In the `default`
switch arm the source builds an "unrecognized workload Kind" error with
`fmt.Errorf` but discards it, so control falls through to `return nil`. -/
def WorkloadExists (env : WorkloadEnv) (workload : LocalTypedReference) :
    Option KError :=
  match env.canonicalize workload with
  | Except.error e => some e
  | Except.ok w =>
    if w.kind = KindDeployment then env.getDeployment
    else if w.kind = KindReplicaSet then env.getReplicaSet
    else if w.kind = KindReplicationController then env.getReplicationController
    else if w.kind = KindStatefulSet then env.getStatefulSet
    else if w.kind = KindDaemonSet then env.getDaemonSet
    else none

-- Controller layer (`pkg/controller/recoveries.go`).

/-- Side effects of one `runRecoveryJob` run, in program order:
`resticGet` is the `Restics(...).Get` call, `setPhase` a
`stash_util.SetRecoveryStatusPhase` write, `event` a recorder event
(warning or normal) with its reason, `rbacEnsure` the
`ensureRecoveryRBAC` call, `jobCreate` the `Jobs(...).Create` call. -/
inductive Effect where
  | resticGet
  | setPhase (p : RecoveryPhase)
  | event (warning : Bool) (reason : String)
  | rbacEnsure
  | jobCreate
  deriving DecidableEq

/-- Environment of one `runRecoveryJob` run: the outcomes of the external
calls it may make. `resticValid` is the outcome of `restic.IsValid()` on
the fetched policy. -/
structure RecoveryEnv where
  resticGet : Except KError Restic
  resticValid : Restic → Option KError
  ensureRBAC : Option KError := none
  jobCreate : Except KError Unit

/-- Controller options read by this code (`c.options`). -/
structure StashOptions where
  sidecarImageTag : String := ""
  enableRBAC : Bool := false
  maxNumRequeues : Nat := 0

/-- The job submission tail of `runRecoveryJob`: create the job; treat an
"already exists" error as success; on any other error set phase `Failed`,
record a warning event and return the error; on success record a normal
event and set phase `Running`. -/
def submitRecoveryJob (env : RecoveryEnv) (acc : List Effect) :
    List Effect × Option KError :=
  match env.jobCreate with
  | Except.error e =>
    if e.alreadyExists = true then
      (acc ++ [Effect.jobCreate], none)
    else
      (acc ++ [Effect.jobCreate, Effect.setPhase RecoveryPhase.Failed,
               Effect.event true EventReasonFailedToRecover], some e)
  | Except.ok _ =>
    (acc ++ [Effect.jobCreate, Effect.event false EventReasonJobCreated,
             Effect.setPhase RecoveryPhase.Running], none)

/-- `runRecoveryJob` from `pkg/controller/recoveries.go`, as an effect
trace plus the Go return value. The job payload built by
`CreateRecoveryJob` is not tracked by the trace. -/
def runRecoveryJob (opts : StashOptions) (env : RecoveryEnv) (rec : Recovery) :
    List Effect × Option KError :=
  if rec.status.phase = RecoveryPhase.Succeeded
      ∨ rec.status.phase = RecoveryPhase.Running then
    ([], none)
  else
    match env.resticGet with
    | Except.error e =>
      ([Effect.resticGet, Effect.setPhase RecoveryPhase.Failed,
        Effect.event true EventReasonFailedToRecover], some e)
    | Except.ok restic =>
      match env.resticValid restic with
      | some e =>
        ([Effect.resticGet, Effect.setPhase RecoveryPhase.Failed,
          Effect.event true EventReasonFailedToRecover], some e)
      | none =>
        let _job := CreateRecoveryJob rec restic opts.sidecarImageTag
        if opts.enableRBAC = true then
          match env.ensureRBAC with
          | some e =>
            ([Effect.resticGet, Effect.rbacEnsure],
             some { msg := "error ensuring rbac for recovery job: " ++ e.msg,
                    alreadyExists := false })
          | none => submitRecoveryJob env [Effect.resticGet, Effect.rbacEnsure]
        else
          submitRecoveryJob env [Effect.resticGet]

/-- Effects of one update event handled by the `UpdateFunc` closure of
`initRecoveryWatcher`: a warning event about an invalid object, or an
enqueued key. -/
inductive UpdateEffect where
  | warnInvalid
  | enqueue (key : String)
  deriving DecidableEq

/-- `cache.MetaNamespaceKeyFunc`: the `namespace/name` key (just the name
for cluster-scoped metadata). -/
def MetaNamespaceKeyFunc (m : ObjectMeta) : String :=
  if m.ns = "" then m.name else m.ns ++ "/" ++ m.name

/-- The `UpdateFunc` closure of `initRecoveryWatcher`: re-validate the
new object (recording a warning and stopping when invalid), then enqueue
the new object's key exactly when `RecoveryEqual` denies equality.
`newValidErr` is the outcome of `newObj.IsValid()`. -/
def recoveryUpdateFunc (newValidErr : Option KError) (old nw : Recovery) :
    List UpdateEffect :=
  match newValidErr with
  | some _ => [UpdateEffect.warnInvalid]
  | none =>
    if RecoveryEqual (some old) (some nw) = true then []
    else [UpdateEffect.enqueue (MetaNamespaceKeyFunc nw.metadata)]

/-- Queue operations performed by one `processNextRecovery` iteration. -/
inductive QAction where
  | done
  | forget
  | addRateLimited
  | handleError
  deriving DecidableEq

/-- `processNextRecovery` from `pkg/controller/recoveries.go`: one worker
iteration. `item` is the dequeued key (`none` when the queue is shutting
down), `reconcile` the outcome of `runRecoveryInjector` on the key,
`numRequeues` the key's current requeue count and `maxNumRequeues` the
configured ceiling. Returns whether the worker loop continues, plus the
queue operations in program order (the deferred `Done` runs last). -/
def processNextRecovery (item : Option String) (reconcile : String → Option KError)
    (numRequeues maxNumRequeues : Nat) : Bool × List QAction :=
  match item with
  | none => (false, [])
  | some key =>
    match reconcile key with
    | none => (true, [QAction.forget, QAction.done])
    | some _ =>
      if numRequeues < maxNumRequeues then
        (true, [QAction.addRateLimited, QAction.done])
      else
        (true, [QAction.forget, QAction.handleError, QAction.done])

-- Concrete sample objects used by witnesses and counterexamples.

def sampleRestic : Restic :=
  { metadata := { name := "rs1", ns := "default" }
    spec := { backend := { storageSecretName := "sec", remote := some "s3:bucket" } } }

def sampleRecPending : Recovery :=
  { metadata := { name := "r1", ns := "default" }
    spec := { restic := "rs1", nodeName := "node1" }
    status := { phase := RecoveryPhase.Pending } }

def sampleRecRunning : Recovery :=
  { sampleRecPending with status := { phase := RecoveryPhase.Running } }

def sampleOpts : StashOptions :=
  { sidecarImageTag := "0.5.1", enableRBAC := false, maxNumRequeues := 5 }

def sampleEnvOk : RecoveryEnv :=
  { resticGet := Except.ok sampleRestic, resticValid := fun _ => none,
    jobCreate := Except.ok () }

def sampleEnvExists : RecoveryEnv :=
  { resticGet := Except.ok sampleRestic, resticValid := fun _ => none,
    jobCreate := Except.error { msg := "jobs \x22stash-r1\x22 already exists",
                                alreadyExists := true } }

def sampleEnvGetFail : RecoveryEnv :=
  { resticGet := Except.error { msg := "restics \x22rs1\x22 not found" },
    resticValid := fun _ => none,
    jobCreate := Except.ok () }

-- Shared shape lemma: the run of `runRecoveryJob` that reaches job
-- creation and hits an "already exists" response.

lemma runRecoveryJob_already_exists_run (opts : StashOptions) (env : RecoveryEnv)
    (rec : Recovery) (restic : Restic) (e : KError)
    (h1 : ¬(rec.status.phase = RecoveryPhase.Succeeded
            ∨ rec.status.phase = RecoveryPhase.Running))
    (h2 : env.resticGet = Except.ok restic)
    (h3 : env.resticValid restic = none)
    (h4 : opts.enableRBAC = true → env.ensureRBAC = none)
    (h5 : env.jobCreate = Except.error e)
    (h6 : e.alreadyExists = true) :
    runRecoveryJob opts env rec
      = ((if opts.enableRBAC = true then [Effect.resticGet, Effect.rbacEnsure]
          else [Effect.resticGet]) ++ [Effect.jobCreate], none) := by
  by_cases hE : opts.enableRBAC = true
  · simp [runRecoveryJob, submitRecoveryJob, h1, h2, h3, hE, h4 hE, h5, h6]
  · simp [runRecoveryJob, submitRecoveryJob, h1, h2, h3, hE, h5, h6]

/-- Claim C1: when the derived Job creation returns an "already exists"
error, `runRecoveryJob` returns nil: no error is propagated to the queue
layer, the phase is not set to `Failed`, and no warning event is
recorded. -/
theorem recovery_job_already_exists_returns_nil (opts : StashOptions)
    (env : RecoveryEnv) (rec : Recovery) (restic : Restic) (e : KError)
    (h1 : ¬(rec.status.phase = RecoveryPhase.Succeeded
            ∨ rec.status.phase = RecoveryPhase.Running))
    (h2 : env.resticGet = Except.ok restic)
    (h3 : env.resticValid restic = none)
    (h4 : opts.enableRBAC = true → env.ensureRBAC = none)
    (h5 : env.jobCreate = Except.error e)
    (h6 : e.alreadyExists = true) :
    (runRecoveryJob opts env rec).2 = none
      ∧ Effect.setPhase RecoveryPhase.Failed ∉ (runRecoveryJob opts env rec).1
      ∧ ∀ reason, Effect.event true reason ∉ (runRecoveryJob opts env rec).1 := by
  rw [runRecoveryJob_already_exists_run opts env rec restic e h1 h2 h3 h4 h5 h6]
  refine ⟨rfl, ?_, ?_⟩
  · by_cases hE : opts.enableRBAC = true <;> simp [hE]
  · intro reason
    by_cases hE : opts.enableRBAC = true <;> simp [hE]

theorem recovery_job_already_exists_returns_nil_witness :
    (runRecoveryJob sampleOpts sampleEnvExists sampleRecPending).2 = none
      ∧ Effect.setPhase RecoveryPhase.Failed
          ∉ (runRecoveryJob sampleOpts sampleEnvExists sampleRecPending).1
      ∧ ∀ reason, Effect.event true reason
          ∉ (runRecoveryJob sampleOpts sampleEnvExists sampleRecPending).1 :=
  recovery_job_already_exists_returns_nil sampleOpts sampleEnvExists
    sampleRecPending sampleRestic
    { msg := "jobs \x22stash-r1\x22 already exists", alreadyExists := true }
    (by decide) rfl rfl (fun h => by simp [sampleOpts] at h) rfl rfl

/-- Claim C2: a Recovery whose status phase is already `Succeeded` or
`Running` makes `runRecoveryJob` return nil immediately with no side
effect: no Restic lookup, no Job creation, no phase write, no event. -/
theorem recovery_short_circuit_no_effects (opts : StashOptions)
    (env : RecoveryEnv) (rec : Recovery)
    (h : rec.status.phase = RecoveryPhase.Succeeded
         ∨ rec.status.phase = RecoveryPhase.Running) :
    runRecoveryJob opts env rec = ([], none) := by
  unfold runRecoveryJob
  rw [if_pos h]

theorem recovery_short_circuit_no_effects_witness :
    runRecoveryJob sampleOpts sampleEnvOk sampleRecRunning = ([], none) :=
  recovery_short_circuit_no_effects sampleOpts sampleEnvOk sampleRecRunning
    (Or.inr rfl)

/-- Claim C6: for a Recovery not in phase `Succeeded`/`Running` whose
referenced Restic is missing (Get fails) or invalid, `runRecoveryJob`
sets the phase to `Failed`, records a warning event, and returns the
non-nil error. -/
theorem recovery_restic_missing_or_invalid_fails (opts : StashOptions)
    (env : RecoveryEnv) (rec : Recovery) (e : KError)
    (h1 : ¬(rec.status.phase = RecoveryPhase.Succeeded
            ∨ rec.status.phase = RecoveryPhase.Running))
    (h2 : env.resticGet = Except.error e
          ∨ ∃ r, env.resticGet = Except.ok r ∧ env.resticValid r = some e) :
    runRecoveryJob opts env rec
      = ([Effect.resticGet, Effect.setPhase RecoveryPhase.Failed,
          Effect.event true EventReasonFailedToRecover], some e) := by
  rcases h2 with h | ⟨r, hr, hv⟩
  · simp [runRecoveryJob, h1, h]
  · simp [runRecoveryJob, h1, hr, hv]

theorem recovery_restic_missing_or_invalid_fails_witness :
    runRecoveryJob sampleOpts sampleEnvGetFail sampleRecPending
      = ([Effect.resticGet, Effect.setPhase RecoveryPhase.Failed,
          Effect.event true EventReasonFailedToRecover],
         some { msg := "restics \x22rs1\x22 not found" }) :=
  recovery_restic_missing_or_invalid_fails sampleOpts sampleEnvGetFail
    sampleRecPending { msg := "restics \x22rs1\x22 not found" }
    (by decide) (Or.inl rfl)

/-- Claim C10: on the "already exists" job-creation path,
`runRecoveryJob` returns before the success tail: no phase write at all
(in particular none to `Running`), no normal event, nil result — the
Recovery keeps whatever phase it had. -/
theorem recovery_job_already_exists_frame (opts : StashOptions)
    (env : RecoveryEnv) (rec : Recovery) (restic : Restic) (e : KError)
    (h1 : ¬(rec.status.phase = RecoveryPhase.Succeeded
            ∨ rec.status.phase = RecoveryPhase.Running))
    (h2 : env.resticGet = Except.ok restic)
    (h3 : env.resticValid restic = none)
    (h4 : opts.enableRBAC = true → env.ensureRBAC = none)
    (h5 : env.jobCreate = Except.error e)
    (h6 : e.alreadyExists = true) :
    (∀ p, Effect.setPhase p ∉ (runRecoveryJob opts env rec).1)
      ∧ (∀ reason, Effect.event false reason ∉ (runRecoveryJob opts env rec).1)
      ∧ (runRecoveryJob opts env rec).2 = none := by
  rw [runRecoveryJob_already_exists_run opts env rec restic e h1 h2 h3 h4 h5 h6]
  refine ⟨?_, ?_, rfl⟩
  · intro p
    by_cases hE : opts.enableRBAC = true <;> simp [hE]
  · intro reason
    by_cases hE : opts.enableRBAC = true <;> simp [hE]

theorem recovery_job_already_exists_frame_witness :
    (∀ p, Effect.setPhase p
        ∉ (runRecoveryJob sampleOpts sampleEnvExists sampleRecPending).1)
      ∧ (∀ reason, Effect.event false reason
          ∉ (runRecoveryJob sampleOpts sampleEnvExists sampleRecPending).1)
      ∧ (runRecoveryJob sampleOpts sampleEnvExists sampleRecPending).2 = none :=
  recovery_job_already_exists_frame sampleOpts sampleEnvExists
    sampleRecPending sampleRestic
    { msg := "jobs \x22stash-r1\x22 already exists", alreadyExists := true }
    (by decide) rfl rfl (fun h => by simp [sampleOpts] at h) rfl rfl

/-- Claim C3: on a dequeued key whose reconcile fails, the worker loop
continues (returns true); the key is re-added through the rate limiter
exactly when its requeue count is below the configured maximum; once the
maximum is reached the key is forgotten and the error is reported to the
process-wide error handler exactly once. -/
theorem process_next_recovery_bounded_retry (key : String)
    (reconcile : String → Option KError) (n m : Nat) (e : KError)
    (h : reconcile key = some e) :
    (processNextRecovery (some key) reconcile n m).1 = true
      ∧ (QAction.addRateLimited ∈ (processNextRecovery (some key) reconcile n m).2
          ↔ n < m)
      ∧ (n < m → (processNextRecovery (some key) reconcile n m).2
          = [QAction.addRateLimited, QAction.done])
      ∧ (¬ n < m → (processNextRecovery (some key) reconcile n m).2
          = [QAction.forget, QAction.handleError, QAction.done]) := by
  by_cases hn : n < m <;> simp [processNextRecovery, h, hn]

theorem process_next_recovery_bounded_retry_witness :
    (processNextRecovery (some "default/r1")
        (fun _ => some { msg := "sync failed" }) 5 5).1 = true
      ∧ (QAction.addRateLimited
            ∈ (processNextRecovery (some "default/r1")
                (fun _ => some { msg := "sync failed" }) 5 5).2
          ↔ 5 < 5)
      ∧ (5 < 5 → (processNextRecovery (some "default/r1")
          (fun _ => some { msg := "sync failed" }) 5 5).2
          = [QAction.addRateLimited, QAction.done])
      ∧ (¬ 5 < 5 → (processNextRecovery (some "default/r1")
          (fun _ => some { msg := "sync failed" }) 5 5).2
          = [QAction.forget, QAction.handleError, QAction.done]) :=
  process_next_recovery_bounded_retry "default/r1"
    (fun _ => some { msg := "sync failed" }) 5 5 { msg := "sync failed" } rfl

-- Reflexivity of the quantity-aware comparer (used for C5).

lemma optQuantityQeq_refl (o : Option Quantity) : optQuantityQeq o o = true := by
  cases o <;> simp [optQuantityQeq, Quantity.cmpEqual]

lemma VolumeSource_qeq_refl (v : VolumeSource) : VolumeSource.qeq v v = true := by
  cases v <;> simp [VolumeSource.qeq, optQuantityQeq_refl]

lemma LocalSpec_qeq_refl (l : LocalSpec) : LocalSpec.qeq l l = true := by
  simp [LocalSpec.qeq, VolumeSource_qeq_refl]

lemma optLocalQeq_refl (o : Option LocalSpec) : optLocalQeq o o = true := by
  cases o <;> simp [optLocalQeq, LocalSpec_qeq_refl]

lemma Backend_qeq_refl (b : Backend) : Backend.qeq b b = true := by
  simp [Backend.qeq, optLocalQeq_refl]

lemma resourceListQeq_refl (l : List (String × Quantity)) :
    resourceListQeq l l = true := by
  simp only [resourceListQeq, List.all_eq_true]
  intro k _
  cases h : l.lookup k <;> simp [optQuantityQeq, Quantity.cmpEqual]

/-- A Restic with its storage request replaced by the given quantity
(everything else unchanged). -/
def withStorageRequest (r : Restic) (q : Quantity) : Restic :=
  { r with spec := { r.spec with
      resources := { r.spec.resources with requests := [("storage", q)] } } }

/-- Claim C5: `ResticEqual` compares only the spec subsection (object
metadata is irrelevant, and the type carries no status) and compares
quantity-valued fields by parsed numeric value: specs differing only in
the serialization of an equal quantity ("1Gi" vs "1024Mi") compare
equal, while numerically different quantities compare unequal. -/
theorem restic_equal_spec_only_quantity_numeric :
    (∀ (r1 r2 : Restic) (m1 m2 : ObjectMeta),
        ResticEqual (some { r1 with metadata := m1 })
            (some { r2 with metadata := m2 })
          = ResticEqual (some r1) (some r2))
      ∧ (∀ r : Restic,
          ResticEqual
              (some (withStorageRequest r { i := 1073741824, s := "1Gi" }))
              (some (withStorageRequest r { i := 1073741824, s := "1024Mi" }))
            = true)
      ∧ (∀ r : Restic,
          ResticEqual
              (some (withStorageRequest r { i := 1073741824, s := "1Gi" }))
              (some (withStorageRequest r { i := 2147483648, s := "2Gi" }))
            = false) := by
  refine ⟨fun r1 r2 m1 m2 => rfl, fun r => ?_, fun r => ?_⟩
  · have hreq : resourceListQeq
        [("storage", ({ i := 1073741824, s := "1Gi" } : Quantity))]
        [("storage", ({ i := 1073741824, s := "1024Mi" } : Quantity))] = true := by
      decide
    simp [ResticEqual, optResticSpecQeq, withStorageRequest, ResticSpec.qeq,
      Backend_qeq_refl, ResourceRequirements.qeq, resourceListQeq_refl, hreq]
  · have hreq : resourceListQeq
        [("storage", ({ i := 1073741824, s := "1Gi" } : Quantity))]
        [("storage", ({ i := 2147483648, s := "2Gi" } : Quantity))] = false := by
      decide
    simp [ResticEqual, optResticSpecQeq, withStorageRequest, ResticSpec.qeq,
      Backend_qeq_refl, ResourceRequirements.qeq, resourceListQeq_refl, hreq]

-- Concrete update event for C4: old and new Recovery differ only in the
-- serialized form of a numerically equal emptyDir size limit.

def c4RecOld : Recovery :=
  { metadata := { name := "r1", ns := "default" }
    spec := { restic := "rs1", nodeName := "node1"
              volumes := [{ name := "data",
                            volumeSource := VolumeSource.emptyDir
                              (some { i := 1073741824, s := "1Gi" }) }] }
    status := {} }

def c4RecNew : Recovery :=
  { c4RecOld with
    spec := { c4RecOld.spec with
      volumes := [{ name := "data",
                    volumeSource := VolumeSource.emptyDir
                      (some { i := 1073741824, s := "1024Mi" }) }] } }

/-- Claim C4 counterexample: a valid update whose only change is a
quantity reformatted to a numerically equal serialization ("1Gi" to
"1024Mi" in an emptyDir size limit) IS enqueued, because `RecoveryEqual`
uses `reflect.DeepEqual` on the spec, which sees the cached string form
of the quantity — the claim says such an update is never enqueued. -/
theorem recovery_update_quantity_reformat_enqueues :
    RecoverySpecNumEq c4RecOld.spec c4RecNew.spec = true
      ∧ recoveryUpdateFunc none c4RecOld c4RecNew
          = [UpdateEffect.enqueue "default/r1"] := by
  decide

/-- Claim C4 (amended): the key is enqueued iff the new object is valid
and the specs differ under `reflect.DeepEqual` (full structural
equality). Status-only or metadata-only churn is still never enqueued;
but a spec differing only in the serialization of a numerically equal
quantity DOES differ structurally and is enqueued. -/
theorem recovery_update_enqueue_spec_deep_equal (newValidErr : Option KError)
    (old nw : Recovery) :
    UpdateEffect.enqueue (MetaNamespaceKeyFunc nw.metadata)
        ∈ recoveryUpdateFunc newValidErr old nw
      ↔ newValidErr = none ∧ ¬ old.spec = nw.spec := by
  cases newValidErr with
  | some e => simp [recoveryUpdateFunc]
  | none =>
    by_cases h : old.spec = nw.spec <;>
      simp [recoveryUpdateFunc, RecoveryEqual, h]

/-- Claim C8: `CreateSidecarContainer` returns a container named `stash`
whose tag is overridden by the policy's version-tag annotation when
present; a `canary` effective tag yields pull policy `Always` and
verbosity `--v=5`, any other tag `IfNotPresent` and `--v=3`; and the
volume mounts are the fixed scratch and pod-metadata mounts, every mount
declared on the policy forced read-only, and — exactly when the backend
is local — a `stash-local` mount at the backend's declared path. -/
theorem create_sidecar_container_shape (r : Restic) (tag : String)
    (w : LocalTypedReference) :
    (CreateSidecarContainer r tag w).name = StashContainer
      ∧ (CreateSidecarContainer r tag w).image
          = ImageOperator ++ ":" ++ effectiveTag r tag
      ∧ (CreateSidecarContainer r tag w).imagePullPolicy
          = (if effectiveTag r tag = "canary" then PullPolicy.Always
             else PullPolicy.IfNotPresent)
      ∧ (CreateSidecarContainer r tag w).args
          = ["schedule", "--restic-name=" ++ r.metadata.name,
             "--workload-kind=" ++ w.kind, "--workload-name=" ++ w.name,
             if effectiveTag r tag = "canary" then "--v=5" else "--v=3"]
      ∧ (CreateSidecarContainer r tag w).volumeMounts
          = [{ name := ScratchDirVolumeName, mountPath := "/tmp" },
             { name := PodinfoVolumeName, mountPath := "/etc/stash" }]
            ++ r.spec.volumeMounts.map (fun srcVol =>
                 { name := srcVol.name, mountPath := srcVol.mountPath,
                   subPath := srcVol.subPath, readOnly := true })
            ++ (match r.spec.backend.Local with
                | some l => [{ name := LocalVolumeName, mountPath := l.path }]
                | none => []) := by
  by_cases hc : effectiveTag r tag = "canary" <;>
    cases hb : r.spec.backend.Local <;>
    simp [CreateSidecarContainer, hc, hb]

/-- Claim C9: `WorkloadExists` on a workload reference whose (canonical)
kind is none of the five recognized workload kinds returns nil: the
"unrecognized workload Kind" error is formatted but discarded. -/
theorem workload_exists_unrecognized_kind_nil (env : WorkloadEnv)
    (w w' : LocalTypedReference)
    (h0 : env.canonicalize w = Except.ok w')
    (h1 : w'.kind ≠ KindDeployment)
    (h2 : w'.kind ≠ KindReplicaSet)
    (h3 : w'.kind ≠ KindReplicationController)
    (h4 : w'.kind ≠ KindStatefulSet)
    (h5 : w'.kind ≠ KindDaemonSet) :
    WorkloadExists env w = none := by
  simp [WorkloadExists, h0, h1, h2, h3, h4, h5]

def c9Env : WorkloadEnv :=
  { canonicalize := fun w => Except.ok w
    getDeployment := some { msg := "deployments \x22cj\x22 not found" } }

theorem workload_exists_unrecognized_kind_nil_witness :
    WorkloadExists c9Env { kind := "CronJob", name := "cj" } = none :=
  workload_exists_unrecognized_kind_nil c9Env
    { kind := "CronJob", name := "cj" } { kind := "CronJob", name := "cj" }
    rfl (by decide) (by decide) (by decide) (by decide) (by decide)

-- Lemmas about the `stash-local` bookkeeping of `MergeLocalVolume`
-- (used for C7).

lemma findLocalIdx_eq_none (vs : List Volume) :
    findLocalIdx vs = none ↔ countLocal vs = 0 := by
  induction vs with
  | nil => simp [findLocalIdx, countLocal]
  | cons v rest ih =>
    by_cases hv : v.name = LocalVolumeName
    · simp [findLocalIdx, countLocal, hv]
    · simp [findLocalIdx, countLocal, hv, Option.map_eq_none', ih]

lemma findLocalIdx_some_count (vs : List Volume) (i : Nat)
    (h : findLocalIdx vs = some i) : countLocal vs ≠ 0 := by
  intro hc
  rw [(findLocalIdx_eq_none vs).mpr hc] at h
  exact Option.noConfusion h

lemma countLocal_set_found : ∀ (vs : List Volume) (i : Nat) (s : VolumeSource),
    findLocalIdx vs = some i →
    countLocal (vs.set i { name := LocalVolumeName, volumeSource := s })
        = countLocal vs
      ∧ othersOf (vs.set i { name := LocalVolumeName, volumeSource := s })
        = othersOf vs := by
  intro vs
  induction vs with
  | nil => intro i s h; simp [findLocalIdx] at h
  | cons v rest ih =>
    intro i s h
    by_cases hv : v.name = LocalVolumeName
    · have h0 : i = 0 := by
        simp [findLocalIdx, hv] at h
        omega
      subst h0
      simp [List.set, countLocal, othersOf, hv, LocalVolumeName]
    · have hrest : ∃ j, findLocalIdx rest = some j ∧ i = j + 1 := by
        simp only [findLocalIdx, hv, if_false] at h
        cases hf : findLocalIdx rest with
        | none => rw [hf] at h; simp at h
        | some j =>
          rw [hf] at h
          simp at h
          exact ⟨j, rfl, h.symm⟩
      obtain ⟨j, hj, hi⟩ := hrest
      subst hi
      have hih := ih j s hj
      simp [List.set, countLocal, othersOf, hv, hih.1, hih.2]

lemma countLocal_eraseIdx_found : ∀ (vs : List Volume) (i : Nat),
    findLocalIdx vs = some i →
    countLocal vs = countLocal (vs.eraseIdx i) + 1
      ∧ othersOf (vs.eraseIdx i) = othersOf vs := by
  intro vs
  induction vs with
  | nil => intro i h; simp [findLocalIdx] at h
  | cons v rest ih =>
    intro i h
    by_cases hv : v.name = LocalVolumeName
    · have h0 : i = 0 := by
        simp [findLocalIdx, hv] at h
        omega
      subst h0
      simp [List.eraseIdx, countLocal, othersOf, hv]
      omega
    · have hrest : ∃ j, findLocalIdx rest = some j ∧ i = j + 1 := by
        simp only [findLocalIdx, hv, if_false] at h
        cases hf : findLocalIdx rest with
        | none => rw [hf] at h; simp at h
        | some j =>
          rw [hf] at h
          simp at h
          exact ⟨j, rfl, h.symm⟩
      obtain ⟨j, hj, hi⟩ := hrest
      subst hi
      have hih := ih j hj
      simp [List.eraseIdx, countLocal, othersOf, hv, hih.2]
      omega

lemma countLocal_upsert (vs : List Volume) (s : VolumeSource) :
    countLocal (UpsertVolume vs { name := LocalVolumeName, volumeSource := s })
        = (if countLocal vs = 0 then 1 else countLocal vs)
      ∧ othersOf (UpsertVolume vs { name := LocalVolumeName, volumeSource := s })
        = othersOf vs := by
  induction vs with
  | nil => simp [UpsertVolume, countLocal, othersOf]
  | cons v rest ih =>
    by_cases hv : v.name = LocalVolumeName
    · simp [UpsertVolume, countLocal, othersOf, hv]
    · simp [UpsertVolume, countLocal, othersOf, hv, ih.1, ih.2]

lemma mergeLocal_once (volumes : List Volume) (old : Option Restic) (nw : Restic)
    (h : countLocal volumes ≤ 1) :
    countLocal (MergeLocalVolume volumes old nw)
        = (if (nw.spec.backend.Local).isSome = true then 1
           else if oldHasLocal old = true then 0 else countLocal volumes)
      ∧ othersOf (MergeLocalVolume volumes old nw) = othersOf volumes := by
  have hupsert : ∀ l : LocalSpec,
      countLocal (UpsertVolume volumes
          { name := LocalVolumeName, volumeSource := l.volumeSource }) = 1 := by
    intro l
    rw [(countLocal_upsert volumes l.volumeSource).1]
    split_ifs <;> omega
  cases old with
  | none =>
    cases hnl : nw.spec.backend.Local with
    | some l =>
      refine ⟨?_, ?_⟩
      · simp [MergeLocalVolume, hnl, hupsert l]
      · simp [MergeLocalVolume, hnl, (countLocal_upsert volumes l.volumeSource).2]
    | none => simp [MergeLocalVolume, hnl, oldHasLocal]
  | some o =>
    cases hol : o.spec.backend.Local with
    | none =>
      cases hnl : nw.spec.backend.Local with
      | some l =>
        refine ⟨?_, ?_⟩
        · simp [MergeLocalVolume, hnl, hol, hupsert l]
        · simp [MergeLocalVolume, hnl, hol,
            (countLocal_upsert volumes l.volumeSource).2]
      | none => simp [MergeLocalVolume, hnl, hol, oldHasLocal]
    | some ls =>
      cases hf : findLocalIdx volumes with
      | none =>
        have hc0 : countLocal volumes = 0 := (findLocalIdx_eq_none volumes).mp hf
        cases hnl : nw.spec.backend.Local with
        | some l =>
          refine ⟨?_, ?_⟩
          · simp [MergeLocalVolume, hnl, hol, hf, hupsert l]
          · simp [MergeLocalVolume, hnl, hol, hf,
              (countLocal_upsert volumes l.volumeSource).2]
        | none =>
          simp [MergeLocalVolume, hnl, hol, hf, oldHasLocal, hc0]
      | some i =>
        have hc1 : countLocal volumes = 1 := by
          have := findLocalIdx_some_count volumes i hf
          omega
        cases hnl : nw.spec.backend.Local with
        | some l =>
          have hset := countLocal_set_found volumes i l.volumeSource hf
          refine ⟨?_, ?_⟩
          · simp [MergeLocalVolume, hnl, hol, hf, hset.1, hc1]
          · simp [MergeLocalVolume, hnl, hol, hf, hset.2]
        | none =>
          have herase := countLocal_eraseIdx_found volumes i hf
          refine ⟨?_, ?_⟩
          · simp only [MergeLocalVolume, hnl, hol, hf, oldHasLocal]
            simp
            omega
          · simp [MergeLocalVolume, hnl, hol, hf, herase.2]

/-- Claim C7 (amended): for a volume list containing at most one entry
named `stash-local`, applying `MergeLocalVolume` twice with identical
input yields exactly one `stash-local` entry when the new backend is
local, removes the entry when the old backend was local and the new one
is not, and preserves the relative order of all other-named volumes. -/
theorem merge_local_volume_idempotent_upsert (volumes : List Volume)
    (old : Option Restic) (nw : Restic)
    (h : countLocal volumes ≤ 1) :
    ((nw.spec.backend.Local).isSome = true →
        countLocal (MergeLocalVolume (MergeLocalVolume volumes old nw) old nw)
          = 1)
      ∧ (nw.spec.backend.Local = none → oldHasLocal old = true →
          countLocal (MergeLocalVolume (MergeLocalVolume volumes old nw) old nw)
            = 0)
      ∧ othersOf (MergeLocalVolume (MergeLocalVolume volumes old nw) old nw)
          = othersOf volumes := by
  obtain ⟨hc1, ho1⟩ := mergeLocal_once volumes old nw h
  have h1 : countLocal (MergeLocalVolume volumes old nw) ≤ 1 := by
    rw [hc1]
    split_ifs <;> omega
  obtain ⟨hc2, ho2⟩ := mergeLocal_once (MergeLocalVolume volumes old nw) old nw h1
  refine ⟨?_, ?_, ho2.trans ho1⟩
  · intro hs
    rw [hc2, if_pos hs]
  · intro hn ho
    have hs : (nw.spec.backend.Local).isSome = false := by
      rw [hn]
      rfl
    rw [hc2]
    simp [hs, ho]

-- Concrete data for the C7 counterexample and witness.

def c7Restic : Restic :=
  { metadata := { name := "rs-local", ns := "default" }
    spec := { backend := { Local := some { volumeSource := VolumeSource.hostPath "/repo",
                                           path := "/repo" } } } }

def c7DupVolumes : List Volume :=
  [{ name := "stash-local", volumeSource := VolumeSource.other "a" },
   { name := "stash-local", volumeSource := VolumeSource.other "b" }]

/-- Claim C7 counterexample: on a volume list that already contains two
entries named `stash-local`, with old and new policies both local,
applying `MergeLocalVolume` twice leaves two entries named `stash-local`
— not the "exactly one entry" the claim promises for every volume
list (the replace/remove paths touch only the first occurrence). -/
theorem merge_local_volume_duplicate_counterexample :
    (c7Restic.spec.backend.Local).isSome = true
      ∧ countLocal
          (MergeLocalVolume
            (MergeLocalVolume c7DupVolumes (some c7Restic) c7Restic)
            (some c7Restic) c7Restic) = 2 := by
  decide

theorem merge_local_volume_idempotent_upsert_witness :
    ((c7Restic.spec.backend.Local).isSome = true →
        countLocal
          (MergeLocalVolume
            (MergeLocalVolume
              [{ name := "data", volumeSource := VolumeSource.other "d" }]
              none c7Restic)
            none c7Restic) = 1)
      ∧ (c7Restic.spec.backend.Local = none → oldHasLocal none = true →
          countLocal
            (MergeLocalVolume
              (MergeLocalVolume
                [{ name := "data", volumeSource := VolumeSource.other "d" }]
                none c7Restic)
              none c7Restic) = 0)
      ∧ othersOf
          (MergeLocalVolume
            (MergeLocalVolume
              [{ name := "data", volumeSource := VolumeSource.other "d" }]
              none c7Restic)
            none c7Restic)
        = othersOf [{ name := "data", volumeSource := VolumeSource.other "d" }] :=
  merge_local_volume_idempotent_upsert
    [{ name := "data", volumeSource := VolumeSource.other "d" }]
    none c7Restic (by decide)
